import Mathlib

/-!
Shallow embedding of the `network-change` crate (src/lib.rs, src/linux.rs,
src/windows.rs, src/macos.rs) and proofs about its status translation,
state store and monitor lifecycle.

Native collaborators (NetworkManager, the Windows network list manager,
the adapter enumeration, the Network framework) are represented by
explicit evidence records: every value the code reads from a native call
is a field of the evidence, and a fallible native call is an `Option`
(`none` = the call failed / returned an error HRESULT).
-/

/-- Rust `NetworkStatus` from src/lib.rs (`repr(u8)`, declaration order gives
Invalid = 0, Satisfied = 1, Unsatisfied = 2, Satisfiable = 3, Unknown = 4). -/
inductive NetworkStatus where
  | Invalid
  | Satisfied
  | Unsatisfied
  | Satisfiable
  | Unknown
  deriving DecidableEq, Repr

/-- Rust `NetworkInfo` from src/lib.rs: the canonical connectivity snapshot. -/
structure NetworkInfo where
  status : NetworkStatus
  is_expensive : Bool
  is_low_data_mode : Bool
  has_ipv4 : Bool
  has_ipv6 : Bool
  has_dns : Bool
  deriving DecidableEq, Repr

/-- Rust `status as u8` (the `repr(u8)` discriminant used by the Windows store). -/
def statusToU8 : NetworkStatus → Nat
  | .Invalid => 0
  | .Satisfied => 1
  | .Unsatisfied => 2
  | .Satisfiable => 3
  | .Unknown => 4

/-- The decoding `match` used by `InternetMonitor::current` and
`DataPlanStatusChanged` in src/windows.rs (`_ => NetworkStatus::Invalid`). -/
def statusOfU8 : Nat → NetworkStatus
  | 0 => .Invalid
  | 1 => .Satisfied
  | 2 => .Unsatisfied
  | 3 => .Satisfiable
  | 4 => .Unknown
  | _ => .Invalid

/-! ## Linux embedding (src/linux.rs)

NetworkManager FFI values (`NMConnectivityState`, `NMMetered`,
`NMDeviceType`) are C enums carried as plain integers; we carry them as
`Nat` with the constants of the `ffi` module. -/

def NM_CONNECTIVITY_UNKNOWN : Nat := 0
def NM_CONNECTIVITY_NONE : Nat := 1
def NM_CONNECTIVITY_PORTAL : Nat := 2
def NM_CONNECTIVITY_LIMITED : Nat := 3
def NM_CONNECTIVITY_FULL : Nat := 4

def NM_METERED_YES : Nat := 1
def NM_METERED_GUESS_YES : Nat := 3

def NM_DEVICE_TYPE_MODEM : Nat := 8

/-- One entry of `nm_client_get_devices`: the device type and whether the
ip4/ip6 config pointers returned for it are non-null. -/
structure NMDevice where
  device_type : Nat
  ip4_config_nonnull : Bool
  ip6_config_nonnull : Bool
  deriving DecidableEq, Repr

/-- Evidence read from `nm_client_get_primary_connection` when that pointer
is non-null: whether its ip4 config and its nameserver array are non-null. -/
structure NMPrimaryConnection where
  ip4_config_nonnull : Bool
  nameservers_nonnull : Bool
  deriving DecidableEq, Repr

/-- All values `network_changed_cb` reads from the NetworkManager client in
one invocation. `primary_connection = none` models a null
`nm_client_get_primary_connection` result. -/
structure LinuxEvidence where
  metered : Nat
  devices : List NMDevice
  primary_connection : Option NMPrimaryConnection
  connectivity : Nat
  deriving DecidableEq, Repr

/-- The `match connectivity` at the end of `network_changed_cb`
(src/linux.rs lines 204-220): FULL → Satisfied, LIMITED | PORTAL →
Satisfiable, NONE → Unsatisfied, anything else → Invalid. -/
def linuxStatusOf (c : Nat) : NetworkStatus :=
  if c = NM_CONNECTIVITY_FULL then .Satisfied
  else if c = NM_CONNECTIVITY_LIMITED ∨ c = NM_CONNECTIVITY_PORTAL then .Satisfiable
  else if c = NM_CONNECTIVITY_NONE then .Unsatisfied
  else .Invalid

/-- The body of the device loop in `network_changed_cb` (src/linux.rs lines
173-193): a modem device sets `is_expensive`, a non-null ip4/ip6 config sets
`has_ipv4`/`has_ipv6`; nothing is ever cleared. -/
def apply_device (info : NetworkInfo) (d : NMDevice) : NetworkInfo :=
  let info := if d.device_type = NM_DEVICE_TYPE_MODEM then { info with is_expensive := true } else info
  let info := if d.ip4_config_nonnull then { info with has_ipv4 := true } else info
  if d.ip6_config_nonnull then { info with has_ipv6 := true } else info

/-- Rust `network_changed_cb` (src/linux.rs lines 159-225) as a transformer of the
process-wide `NETWORK_INFO` store: sets `is_low_data_mode` from
`nm_client_get_metered`, folds the device loop, sets `has_dns` from the
primary connection, and overwrites `status` from `nm_client_get_connectivity`.
The delivery to `GLOBAL_HANDLER` is modelled separately (`linux_fire`). -/
def network_changed_cb (ev : LinuxEvidence) (info : NetworkInfo) : NetworkInfo :=
  let info := { info with
    is_low_data_mode := decide (ev.metered = NM_METERED_YES ∨ ev.metered = NM_METERED_GUESS_YES) }
  let info := ev.devices.foldl apply_device info
  let info :=
    match ev.primary_connection with
    | some pc =>
        if pc.ip4_config_nonnull && pc.nameservers_nonnull then { info with has_dns := true }
        else info
    | none => info
  { info with status := linuxStatusOf ev.connectivity }

/-- The process-wide Linux statics: `NETWORK_INFO` (the snapshot store,
one `static` shared by every `InternetMonitor` instance) and
`GLOBAL_HANDLER` (the single handler cell); a handler is identified by a
`Nat` tag. -/
structure LinuxGlobals where
  info : NetworkInfo
  handler : Option Nat
  deriving DecidableEq, Repr

/-- Per-instance state of the Linux `InternetMonitor`: the set of signal
ids currently connected on the client (the code leaks old connections on a
repeated `start`, so this is a list), the `signal_id` field (which tracks
only the most recent connection), and whether the `g_main_loop_run` thread
is still executing. -/
structure LinuxMonitor where
  connections : List Nat
  signal_id : Option Nat
  thread_running : Bool
  deriving DecidableEq, Repr

/-- One invocation of `network_changed_cb`: commit the translated snapshot
to `NETWORK_INFO` and, if `GLOBAL_HANDLER` holds a handler, deliver the
fresh snapshot to it (src/linux.rs lines 222-224). -/
def linux_fire (ev : LinuxEvidence) (g : LinuxGlobals) :
    LinuxGlobals × List (Nat × NetworkInfo) :=
  let info := network_changed_cb ev g.info
  ({ g with info := info },
   match g.handler with
   | some h => [(h, info)]
   | none => [])

/-- Rust `InternetMonitor::new` (src/linux.rs lines 57-81): fails when
`nm_client_new` returns null; otherwise runs `network_changed_cb` once,
synchronously, then spawns the `GMainLoop` thread. Returns the monitor, the
updated globals and the deliveries the synchronous probe produced. -/
def linux_new (ev : LinuxEvidence) (client_ok : Bool) (g : LinuxGlobals) :
    Except Unit (LinuxMonitor × LinuxGlobals × List (Nat × NetworkInfo)) :=
  if client_ok then
    let (g2, ds) := linux_fire ev g
    .ok ({ connections := [], signal_id := none, thread_running := true }, g2, ds)
  else
    .error ()

/-- Rust `InternetMonitor::start_inner` (src/linux.rs lines 114-138): replaces
`GLOBAL_HANDLER` with the new handler `h`, then `g_signal_connect`s a fresh
signal connection `c` and overwrites the `signal_id` field with it (the
previous connection, if any, stays connected: only the field is replaced). -/
def linux_start (h : Nat) (c : Nat) (m : LinuxMonitor) (g : LinuxGlobals) :
    LinuxMonitor × LinuxGlobals :=
  ({ m with connections := c :: m.connections, signal_id := some c },
   { g with handler := some h })

/-- Rust `InternetMonitor::stop` (src/linux.rs lines 144-151): `take()` the
`signal_id` field and, if it held an id, disconnect that one signal
connection. Nothing else: the thread is not joined, the handler cell and
the snapshot store are untouched, and no error can be produced. -/
def linux_stop (m : LinuxMonitor) : LinuxMonitor :=
  match m.signal_id with
  | some id => { m with connections := m.connections.erase id, signal_id := none }
  | none => m

/-- Rust `Drop for InternetMonitor` (src/linux.rs lines 41-52): runs `stop`,
quits the `GMainLoop` and joins the thread. -/
def linux_drop (m : LinuxMonitor) : LinuxMonitor :=
  { linux_stop m with thread_running := false }

/-- A native `notify::connectivity` emission: every signal connection still
connected on the client invokes `network_changed_cb` once; each invocation
commits to the store and delivers to the current global handler. -/
def linux_change_step (ev : LinuxEvidence)
    (acc : LinuxGlobals × List (Nat × NetworkInfo)) :
    LinuxGlobals × List (Nat × NetworkInfo) :=
  let (g2, d) := linux_fire ev acc.1
  (g2, acc.2 ++ d)

/-- Accumulated effect of the emission over all connected signals. -/
def linux_native_change (ev : LinuxEvidence) (m : LinuxMonitor) (g : LinuxGlobals) :
    LinuxGlobals × List (Nat × NetworkInfo) :=
  m.connections.foldl (fun acc _ => linux_change_step ev acc) (g, [])

/-- Rust `InternetMonitor::current` (src/linux.rs lines 84-86): clone of the
process-wide store. -/
def linux_current (g : LinuxGlobals) : NetworkInfo :=
  g.info

/-! ## Windows embedding (src/windows.rs)

`NLM_CONNECTIVITY` flag constants from the Windows network list manager. -/

def NLM_CONNECTIVITY_IPV4_NOTRAFFIC : Nat := 0x1
def NLM_CONNECTIVITY_IPV6_NOTRAFFIC : Nat := 0x2
def NLM_CONNECTIVITY_IPV4_INTERNET : Nat := 0x40
def NLM_CONNECTIVITY_IPV6_INTERNET : Nat := 0x400

/-- The flag test `connectivity.0 & X == X` used in `get_network_info`. -/
def nlmHasFlag (c flag : Nat) : Bool := Nat.land c flag == flag

/-- One `IP_ADAPTER_ADDRESSES_LH` entry as read by
`has_available_connections` / `has_dns`: its operational status and whether
`FirstDnsServerAddress` is non-null. -/
structure WinAdapter where
  oper_status_up : Bool
  first_dns_server_nonnull : Bool
  deriving DecidableEq, Repr

/-- All values one `get_network_info` call reads from the native layer
besides its `connectivity` argument. `none` on an `Option` field models a
failed native call (an error HRESULT propagated by `?`). The two adapter
lists are separate because `has_available_connections` and `has_dns` each
call `GetAdaptersAddresses` independently. -/
structure WinEvidence where
  connectivity : Nat
  is_connected_to_internet : Option Bool
  is_connected : Option Bool
  adapters_for_available : Option (List WinAdapter)
  adapters_for_dns : Option (List WinAdapter)
  deriving DecidableEq, Repr

/-- Rust `has_available_connections` (src/windows.rs lines 590-602): true iff
some enumerated adapter has `OperStatus == IfOperStatusUp`; `none` when
adapter enumeration fails. -/
def has_available_connections (ev : WinEvidence) : Option Bool :=
  ev.adapters_for_available.map (fun l => l.any (fun a => a.oper_status_up))

/-- Rust `has_dns` (src/windows.rs lines 604-616): finds the first adapter whose
`OperStatus` is up and reports whether its `FirstDnsServerAddress` is
non-null; false when no adapter is up; `none` when enumeration fails. -/
def win_has_dns (ev : WinEvidence) : Option Bool :=
  ev.adapters_for_dns.map (fun l =>
    match l.find? (fun a => a.oper_status_up) with
    | some a => a.first_dns_server_nonnull
    | none => false)

/-- The status chain of `get_network_info` (src/windows.rs lines 633-643):
`IsConnectedToInternet` → Satisfied; else `IsConnected` and a NOTRAFFIC
flag → Unsatisfied; else an adapter up → Satisfiable; else Invalid.
Fails (`.error`) when a native call it actually reaches fails. Note that it
reads nothing from the snapshot store: it is a function of the evidence
alone. -/
def winStatusOf (ev : WinEvidence) : Except Unit NetworkStatus :=
  match ev.is_connected_to_internet, ev.is_connected with
  | some ict, some ic =>
    if ict then .ok .Satisfied
    else if ic && (nlmHasFlag ev.connectivity NLM_CONNECTIVITY_IPV4_NOTRAFFIC
                    || nlmHasFlag ev.connectivity NLM_CONNECTIVITY_IPV6_NOTRAFFIC) then
      .ok .Unsatisfied
    else
      match has_available_connections ev with
      | some true => .ok .Satisfiable
      | some false => .ok .Invalid
      | none => .error ()
  | _, _ => .error ()

/-- The `InternetMonitor` store on Windows: the six `Arc`-shared atomics
(`status` is the raw `AtomicU8`). -/
structure WinStore where
  is_expensive : Bool
  is_low_data_mode : Bool
  has_ipv4 : Bool
  has_ipv6 : Bool
  has_dns : Bool
  status : Nat
  deriving DecidableEq, Repr

/-- Rust `get_network_info` (src/windows.rs lines 618-653) as a store
transformer: computes the status from the evidence, stores it into the
`status` atomic, then evaluates `has_dns()?` and builds the returned
`NetworkInfo` (whose ipv4/ipv6 fields come from the INTERNET connectivity
flags and whose cost fields are loads of the atomics). A failing native
sub-query aborts with `.error`; the status store has already happened when
the failing call is `has_dns`. -/
def get_network_info (ev : WinEvidence) (st : WinStore) :
    WinStore × Except Unit NetworkInfo :=
  match winStatusOf ev with
  | .error _ => (st, .error ())
  | .ok status =>
    let st := { st with status := statusToU8 status }
    match win_has_dns ev with
    | none => (st, .error ())
    | some dns =>
      (st, .ok {
        has_ipv4 := nlmHasFlag ev.connectivity NLM_CONNECTIVITY_IPV4_INTERNET
        has_ipv6 := nlmHasFlag ev.connectivity NLM_CONNECTIVITY_IPV6_INTERNET
        has_dns := dns
        is_low_data_mode := st.is_low_data_mode
        is_expensive := st.is_expensive
        status := status })

/-- Rust `INetworkEvents_Impl::NetworkConnectivityChanged` (src/windows.rs lines
443-457): runs `get_network_info` and forwards the produced snapshot to the
registered handler closure; when `get_network_info` fails, the error is
returned to COM, nothing is delivered and nothing else changes (the
advisory connections in particular stay armed). -/
def win_on_connectivity_changed (ev : WinEvidence) (st : WinStore) :
    WinStore × List NetworkInfo :=
  match get_network_info ev st with
  | (st2, .ok ni) => (st2, [ni])
  | (st2, .error _) => (st2, [])

/-- Rust `InternetMonitor::current` (src/windows.rs lines 230-247): loads the
atomics and decodes the status byte. -/
def win_current (st : WinStore) : NetworkInfo :=
  { is_expensive := st.is_expensive
    is_low_data_mode := st.is_low_data_mode
    has_ipv4 := st.has_ipv4
    has_ipv6 := st.has_ipv6
    has_dns := st.has_dns
    status := statusOfU8 st.status }

/-- One `INetworkConnection` as probed by `InternetMonitor::new`:
whether the `INetworkConnectionCost` interface query succeeds, the
`GetCost` result and the `GetDataPlanStatus` data limit (in megabytes);
`none` models a failed native call. -/
structure WinConnection where
  cost_query_ok : Bool
  cost : Option Nat
  data_limit_mb : Option Nat
  deriving DecidableEq, Repr

/-- Evidence consumed by `InternetMonitor::new`: the `GetConnectivity`
result, the enumerated network connections (`none` when
`GetNetworkConnections` or `Next` fails; the code reads at most the first
element), and the evidence for the inner `get_network_info` call. -/
structure WinNewEvidence where
  connectivity : Option Nat
  connections : Option (List WinConnection)
  path : WinEvidence
  deriving DecidableEq, Repr

/-- Rust `u32::MAX`: the `DataLimitInMegabytes` value meaning "unlimited plan". -/
def U32_MAX : Nat := 4294967295

/-- Rust `NlmConnectionCost::UNRESTRICTED.bits()`. -/
def NLM_COST_UNRESTRICTED : Nat := 1

/-- Evidence for the inner `get_network_info` call of `new`, with its
`connectivity` argument coming from the `GetConnectivity` result. -/
def withConnectivity (ev : WinEvidence) (c : Nat) : WinEvidence :=
  { ev with connectivity := c }

/-- The store produced by the seed-probe closure in `InternetMonitor::new`
(src/windows.rs lines 139-192): all atomics start false / Invalid; when the
first network connection exists, `is_expensive` and `is_low_data_mode` are
stored from its cost data and `get_network_info` runs once; the
`has_ipv4`/`has_ipv6`/`has_dns` atomics are then created from the resulting
`NetworkInfo`. When no connection is enumerated the whole probe body is
skipped and the defaults survive. Any native failure makes `new` fail. -/
def windows_new (ev : WinNewEvidence) : Except Unit WinStore :=
  match ev.connectivity with
  | none => .error ()
  | some c =>
    match ev.connections with
    | none => .error ()
    | some [] =>
      .ok { is_expensive := false, is_low_data_mode := false,
            has_ipv4 := false, has_ipv6 := false, has_dns := false, status := 0 }
    | some (conn :: _) =>
      if conn.cost_query_ok then
        match conn.cost with
        | none => .error ()
        | some cost =>
          match conn.data_limit_mb with
          | none => .error ()
          | some limit =>
            match get_network_info (withConnectivity ev.path c)
              { is_expensive := limit != U32_MAX,
                is_low_data_mode := decide (NLM_COST_UNRESTRICTED < cost),
                has_ipv4 := false, has_ipv6 := false, has_dns := false, status := 0 } with
            | (_, .error _) => .error ()
            | (st2, .ok ni) =>
              .ok { is_expensive := st2.is_expensive, is_low_data_mode := st2.is_low_data_mode,
                    has_ipv4 := ni.has_ipv4, has_ipv6 := ni.has_ipv6, has_dns := ni.has_dns,
                    status := st2.status }
      else .error ()

/-- Lifecycle fields of the Windows `InternetMonitor`: the two advisory
cookies last returned by `Advise` (0 = never advised). -/
structure WinMonitor where
  advise_network_list_manager_cookie : Nat
  advise_cost_manager_cookie : Nat
  deriving DecidableEq, Repr

/-- Rust `InternetMonitor::start_inner` (src/windows.rs lines 275-331): builds
the two sinks and `Advise`s both connection points; on success the cookie
fields are overwritten with the fresh cookies `c1`, `c2` (a previous pair
of advisory connections is left registered); `advise1_ok`/`advise2_ok`
model the native `Advise` outcomes. -/
def win_start (_m : WinMonitor) (c1 c2 : Nat) (advise1_ok advise2_ok : Bool) :
    Except Unit WinMonitor :=
  if advise1_ok then
    if advise2_ok then
      .ok { advise_network_list_manager_cookie := c1, advise_cost_manager_cookie := c2 }
    else .error ()
  else .error ()

/-- Rust `InternetMonitor::stop` (src/windows.rs lines 337-388): for each
non-zero cookie field, call `Unadvise` and propagate its failure as an
error return; then swap the handler sinks for no-op ones. The cookie
fields are never reset, so a successful `stop` returns the monitor with its
cookies intact. `unadvise1_ok`/`unadvise2_ok` model the native `Unadvise`
outcomes (consulted only when the corresponding cookie is non-zero). -/
def win_stop (m : WinMonitor) (unadvise1_ok unadvise2_ok : Bool) :
    Except Unit WinMonitor :=
  if m.advise_network_list_manager_cookie ≠ 0 ∧ ¬ unadvise1_ok then .error ()
  else if m.advise_cost_manager_cookie ≠ 0 ∧ ¬ unadvise2_ok then .error ()
  else .ok m

/-! ## macOS embedding (src/macos.rs) -/

/-- The `NWPathMonitor` lifecycle state: whether `nw_path_monitor_cancel`
has been issued. `new` (src/macos.rs lines 82-88) only creates the native
monitor and assigns its dispatch queue: it performs no probe and the type
exposes no `current` accessor. -/
structure MacMonitor where
  cancelled : Bool
  deriving DecidableEq, Repr

/-- Rust `NWPathMonitor::new` (src/macos.rs lines 82-88). -/
def macos_new : MacMonitor := { cancelled := false }

/-- Rust `NWPathMonitor::stop` (src/macos.rs lines 140-143): issues the
asynchronous `nw_path_monitor_cancel` and unconditionally returns `Ok(())`. -/
def macos_stop (m : MacMonitor) : MacMonitor × Except Unit Unit :=
  ({ m with cancelled := true }, .ok ())

/-! ## The spec-side status mapping (for refinement claims)

Stated from the specification's words, to be compared against the
translators embedded above. -/

/-- The canonical mapping table of spec section 4.2, taking the three
evidence categories as booleans in the spec's priority order: full
confirmed reachability → Satisfied; else route-with-no-traffic →
Unsatisfied; else at-least-one-adapter-up → Satisfiable; else Invalid. -/
def specStatusMapping (full_reachability route_no_traffic adapter_up : Bool) :
    NetworkStatus :=
  if full_reachability then .Satisfied
  else if route_no_traffic then .Unsatisfied
  else if adapter_up then .Satisfiable
  else .Invalid

/-- Accumulated effect of a whole sequence of update callbacks on the
process-wide Linux snapshot store. Because `NETWORK_INFO` is a single
`static`, the sequence may interleave callbacks triggered through any
`InternetMonitor` instance: they all act on this one store. -/
def linux_update_seq (evs : List LinuxEvidence) (i : NetworkInfo) : NetworkInfo :=
  evs.foldl (fun acc ev => network_changed_cb ev acc) i

/-! ## Helper lemmas -/

/-- Field-wise description of one iteration of the Linux device loop. -/
lemma apply_device_fields (i : NetworkInfo) (d : NMDevice) :
    apply_device i d = { i with
      is_expensive := i.is_expensive || decide (d.device_type = NM_DEVICE_TYPE_MODEM),
      has_ipv4 := i.has_ipv4 || d.ip4_config_nonnull,
      has_ipv6 := i.has_ipv6 || d.ip6_config_nonnull } := by
  unfold apply_device
  by_cases h1 : d.device_type = NM_DEVICE_TYPE_MODEM <;>
    cases h4 : d.ip4_config_nonnull <;>
    cases h6 : d.ip6_config_nonnull <;>
    simp [h1, h4, h6]

/-- Closed form of the folded Linux device loop. -/
lemma foldl_apply_device (ds : List NMDevice) (i : NetworkInfo) :
    ds.foldl apply_device i = { i with
      is_expensive := i.is_expensive || ds.any (fun d => decide (d.device_type = NM_DEVICE_TYPE_MODEM)),
      has_ipv4 := i.has_ipv4 || ds.any (fun d => d.ip4_config_nonnull),
      has_ipv6 := i.has_ipv6 || ds.any (fun d => d.ip6_config_nonnull) } := by
  induction ds generalizing i with
  | nil => simp
  | cons d ds ih =>
    rw [List.foldl_cons, apply_device_fields, ih]
    simp [Bool.or_assoc]

/-- Closed form of the whole Linux translation step: every boolean field is
the previous value OR-ed with fresh evidence (except `is_low_data_mode`,
which is overwritten), and `status` is overwritten from the connectivity
enum. -/
lemma network_changed_cb_eq (ev : LinuxEvidence) (i : NetworkInfo) :
    network_changed_cb ev i = {
      status := linuxStatusOf ev.connectivity,
      is_expensive := i.is_expensive || ev.devices.any (fun d => decide (d.device_type = NM_DEVICE_TYPE_MODEM)),
      is_low_data_mode := decide (ev.metered = NM_METERED_YES ∨ ev.metered = NM_METERED_GUESS_YES),
      has_ipv4 := i.has_ipv4 || ev.devices.any (fun d => d.ip4_config_nonnull),
      has_ipv6 := i.has_ipv6 || ev.devices.any (fun d => d.ip6_config_nonnull),
      has_dns := i.has_dns ||
        (match ev.primary_connection with
         | some pc => pc.ip4_config_nonnull && pc.nameservers_nonnull
         | none => false) } := by
  simp only [network_changed_cb, foldl_apply_device]
  cases hpc : ev.primary_connection with
  | none => simp
  | some pc =>
    cases h4 : pc.ip4_config_nonnull <;> cases hn : pc.nameservers_nonnull <;> simp [h4, hn]

/-- The Linux status translation never yields `Unknown`. -/
lemma linuxStatusOf_ne_unknown (c : Nat) : linuxStatusOf c ≠ .Unknown := by
  unfold linuxStatusOf
  split_ifs <;> simp

/-- The Windows status translation never yields `Unknown`. -/
lemma winStatusOf_ok_ne_unknown {ev : WinEvidence} {s : NetworkStatus}
    (h : winStatusOf ev = .ok s) : s ≠ .Unknown := by
  cases hict : ev.is_connected_to_internet with
  | none => simp [winStatusOf, hict] at h
  | some ict =>
    cases hic : ev.is_connected with
    | none => simp [winStatusOf, hict, hic] at h
    | some ic =>
      simp only [winStatusOf, hict, hic] at h
      split_ifs at h
      · cases h; simp
      · cases h; simp
      · cases hav : has_available_connections ev with
        | none => rw [hav] at h; cases h
        | some b =>
          rw [hav] at h
          cases b <;> cases h <;> simp

/-- Decoding inverts encoding on every status value. -/
lemma statusOfU8_statusToU8 (s : NetworkStatus) : statusOfU8 (statusToU8 s) = s := by
  cases s <;> rfl

/-- Successful runs of the Windows translator commit exactly the freshly
computed status and touch nothing else in the store. -/
lemma get_network_info_ok {ev : WinEvidence} {st st2 : WinStore} {ni : NetworkInfo}
    (h : get_network_info ev st = (st2, .ok ni)) :
    winStatusOf ev = .ok ni.status ∧ st2 = { st with status := statusToU8 ni.status } := by
  unfold get_network_info at h
  cases hs : winStatusOf ev with
  | error e => rw [hs] at h; simp at h
  | ok s =>
    rw [hs] at h
    cases hd : win_has_dns ev with
    | none => rw [hd] at h; simp at h
    | some dns =>
      rw [hd] at h
      simp only [Prod.mk.injEq, Except.ok.injEq] at h
      obtain ⟨h1, h2⟩ := h
      rw [← h2]
      exact ⟨rfl, h1.symm⟩

/-- Failing DNS sub-query: the status is already committed, nothing else
changes, and the call reports the error. -/
lemma get_network_info_dns_fail {ev : WinEvidence} {s : NetworkStatus} (st : WinStore)
    (h1 : winStatusOf ev = .ok s) (h2 : ev.adapters_for_dns = none) :
    get_network_info ev st = ({ st with status := statusToU8 s }, .error ()) := by
  unfold get_network_info win_has_dns
  rw [h1, h2]
  rfl

/-- Construction with an empty connection enumeration leaves the default
store (the probe body is skipped). -/
lemma windows_new_nil {ev : WinNewEvidence} {st : WinStore}
    (hcs : ev.connections = some []) (h : windows_new ev = .ok st) : st.status = 0 := by
  cases hc : ev.connectivity with
  | none => unfold windows_new at h; rw [hc] at h; cases h
  | some c =>
    simp only [windows_new, hc, hcs, Except.ok.injEq] at h
    rw [← h]

/-- Construction that did enumerate a first connection commits the status
produced by the inner `get_network_info` probe. -/
lemma windows_new_cons {ev : WinNewEvidence} {conn : WinConnection}
    {rest : List WinConnection} {st : WinStore} {c : Nat}
    (hc : ev.connectivity = some c)
    (hcs : ev.connections = some (conn :: rest)) (h : windows_new ev = .ok st) :
    ∃ ni : NetworkInfo, winStatusOf (withConnectivity ev.path c) = .ok ni.status ∧
      st.status = statusToU8 ni.status := by
  simp only [windows_new, hc, hcs] at h
  split_ifs at h with hq
  · cases hcost : conn.cost with
    | none => rw [hcost] at h; cases h
    | some cost =>
      simp only [hcost] at h
      cases hlim : conn.data_limit_mb with
      | none => rw [hlim] at h; cases h
      | some limit =>
        simp only [hlim] at h
        rcases hg : get_network_info (withConnectivity ev.path c)
            { is_expensive := limit != U32_MAX,
              is_low_data_mode := decide (NLM_COST_UNRESTRICTED < cost),
              has_ipv4 := false, has_ipv6 := false, has_dns := false,
              status := 0 } with ⟨st2, r⟩
        rw [hg] at h
        cases r with
        | error e => cases h
        | ok ni =>
          simp only [Except.ok.injEq] at h
          obtain ⟨hw, hst2⟩ := get_network_info_ok hg
          refine ⟨ni, hw, ?_⟩
          rw [← h, hst2]

/-- Any successful Windows construction leaves either the default status
byte or an encoded translator status in the store. -/
lemma windows_new_status {ev : WinNewEvidence} {st : WinStore}
    (h : windows_new ev = .ok st) :
    st.status = 0 ∨ ∃ s : NetworkStatus, s ≠ .Unknown ∧ st.status = statusToU8 s := by
  cases hc : ev.connectivity with
  | none => unfold windows_new at h; rw [hc] at h; cases h
  | some c =>
    cases hcs : ev.connections with
    | none => unfold windows_new at h; rw [hc, hcs] at h; cases h
    | some conns =>
      cases conns with
      | nil => exact .inl (windows_new_nil hcs h)
      | cons conn rest =>
        obtain ⟨ni, hw, hst⟩ := windows_new_cons hc hcs h
        exact .inr ⟨ni.status, winStatusOf_ok_ne_unknown hw, hst⟩

/-- Firing `network_changed_cb` never touches the handler cell. -/
lemma linux_fire_handler (ev : LinuxEvidence) (g : LinuxGlobals) :
    ((linux_fire ev g).1).handler = g.handler := rfl

/-- Every delivery a single firing produces goes to the registered handler. -/
lemma linux_fire_deliveries (ev : LinuxEvidence) (g : LinuxGlobals) :
    ∀ d ∈ (linux_fire ev g).2, some d.1 = g.handler := by
  unfold linux_fire
  cases hh : g.handler with
  | none => simp
  | some h => simp

/-- Unfolded form of one step of the emission fold. -/
lemma linux_change_step_eq (ev : LinuxEvidence)
    (acc : LinuxGlobals × List (Nat × NetworkInfo)) :
    linux_change_step ev acc = ((linux_fire ev acc.1).1, acc.2 ++ (linux_fire ev acc.1).2) := rfl

/-- Invariant of the emission fold: the handler cell survives, and every
delivery not already in the accumulator goes to the registered handler. -/
lemma linux_change_fold_handler (ev : LinuxEvidence) :
    ∀ (l : List Nat) (acc : LinuxGlobals × List (Nat × NetworkInfo)),
      ((l.foldl (fun a _ => linux_change_step ev a) acc).1.handler = acc.1.handler) ∧
      (∀ d ∈ (l.foldl (fun a _ => linux_change_step ev a) acc).2,
        some d.1 = acc.1.handler ∨ d ∈ acc.2) := by
  intro l
  induction l with
  | nil => exact fun acc => ⟨rfl, fun d hd => .inr hd⟩
  | cons x xs ih =>
    intro acc
    rw [List.foldl_cons]
    obtain ⟨ih1, ih2⟩ := ih (linux_change_step ev acc)
    refine ⟨by rw [ih1]; exact linux_fire_handler ev acc.1, ?_⟩
    intro d hd
    rcases ih2 d hd with h | h
    · left
      rw [h]
      exact linux_fire_handler ev acc.1
    · rw [linux_change_step_eq] at h
      rcases List.mem_append.mp h with h | h
      · exact .inr h
      · exact .inl (linux_fire_deliveries ev acc.1 d h)

/-- While handler `h` is registered, every delivery of a native emission is
addressed to `h`, whatever the set of leaked signal connections is. -/
lemma linux_native_change_to_handler (ev : LinuxEvidence) (m : LinuxMonitor)
    (g : LinuxGlobals) (h : Nat) (hg : g.handler = some h) :
    ∀ d ∈ (linux_native_change ev m g).2, d.1 = h := by
  intro d hd
  unfold linux_native_change at hd
  rcases (linux_change_fold_handler ev m.connections (g, [])).2 d hd with h1 | h1
  · rw [hg] at h1
    exact Option.some_injective _ h1
  · cases h1

/-- Stopping right after a start removes exactly the connection that start
added. -/
lemma stop_after_start_connections (h c : Nat) (m : LinuxMonitor) (g : LinuxGlobals) :
    (linux_stop (linux_start h c m g).1).connections = m.connections := by
  simp [linux_start, linux_stop]

/-- Peeling one update off an update sequence. -/
lemma linux_update_seq_cons (ev : LinuxEvidence) (evs : List LinuxEvidence) (i : NetworkInfo) :
    linux_update_seq (ev :: evs) i = linux_update_seq evs (network_changed_cb ev i) := rfl

/-! ## Claims -/

/-- C1: the Status Translator maps raw connectivity evidence to the
canonical status per the spec mapping table. On Windows, full confirmed
reachability is `IsConnectedToInternet`, "route with no traffic" is
`IsConnected` together with a NOTRAFFIC connectivity flag, and "adapter
up" is an enumerated adapter with operational status up; the translator's
status equals `specStatusMapping` of those three categories. On Linux the
categories are carried by the NetworkManager connectivity enum (FULL =
full confirmed reachability, NONE = route carrying no traffic,
LIMITED/PORTAL = adapter up without confirmed reachability) and the
translated status again equals `specStatusMapping`. -/
theorem C1_status_mapping_fidelity :
    (∀ (ev : WinEvidence) (ict ic : Bool) (adapters : List WinAdapter),
      ev.is_connected_to_internet = some ict →
      ev.is_connected = some ic →
      ev.adapters_for_available = some adapters →
      winStatusOf ev = .ok (specStatusMapping ict
        (ic && (nlmHasFlag ev.connectivity NLM_CONNECTIVITY_IPV4_NOTRAFFIC
          || nlmHasFlag ev.connectivity NLM_CONNECTIVITY_IPV6_NOTRAFFIC))
        (adapters.any (fun a => a.oper_status_up)))) ∧
    (∀ c : Nat, linuxStatusOf c =
      specStatusMapping (decide (c = NM_CONNECTIVITY_FULL))
        (decide (c = NM_CONNECTIVITY_NONE))
        (decide (c = NM_CONNECTIVITY_LIMITED) || decide (c = NM_CONNECTIVITY_PORTAL))) := by
  constructor
  · intro ev ict ic adapters h1 h2 h3
    cases ict with
    | true => simp [winStatusOf, specStatusMapping, h1, h2]
    | false =>
      cases hnt : (ic && (nlmHasFlag ev.connectivity NLM_CONNECTIVITY_IPV4_NOTRAFFIC
          || nlmHasFlag ev.connectivity NLM_CONNECTIVITY_IPV6_NOTRAFFIC)) with
      | true => simp [winStatusOf, specStatusMapping, h1, h2, hnt]
      | false =>
        cases hup : adapters.any (fun a => a.oper_status_up) with
        | true => simp [winStatusOf, specStatusMapping, has_available_connections, h1, h2, h3, hnt, hup]
        | false => simp [winStatusOf, specStatusMapping, has_available_connections, h1, h2, h3, hnt, hup]
  · intro c
    rcases c with _ | _ | _ | _ | _ | c
    · decide
    · decide
    · decide
    · decide
    · decide
    · have h1 : c + 5 ≠ NM_CONNECTIVITY_FULL := by unfold NM_CONNECTIVITY_FULL; omega
      have h2 : c + 5 ≠ NM_CONNECTIVITY_LIMITED := by unfold NM_CONNECTIVITY_LIMITED; omega
      have h3 : c + 5 ≠ NM_CONNECTIVITY_PORTAL := by unfold NM_CONNECTIVITY_PORTAL; omega
      have h5 : c + 5 ≠ NM_CONNECTIVITY_NONE := by unfold NM_CONNECTIVITY_NONE; omega
      simp [linuxStatusOf, specStatusMapping, h1, h2, h3, h5]

/-- Witness for C1 at concrete evidence: full confirmed reachability. -/
theorem C1_status_mapping_fidelity_witness :
    winStatusOf { connectivity := 0, is_connected_to_internet := some true,
                  is_connected := some true, adapters_for_available := some [],
                  adapters_for_dns := some [] } =
    .ok (specStatusMapping true
      (true && (nlmHasFlag 0 NLM_CONNECTIVITY_IPV4_NOTRAFFIC
        || nlmHasFlag 0 NLM_CONNECTIVITY_IPV6_NOTRAFFIC))
      (List.any ([] : List WinAdapter) (fun a => a.oper_status_up))) :=
  C1_status_mapping_fidelity.1
    { connectivity := 0, is_connected_to_internet := some true,
      is_connected := some true, adapters_for_available := some [],
      adapters_for_dns := some [] } true true [] rfl rfl rfl

/-- C9: the status the translator produces is a deterministic function of
the raw evidence alone. On Windows the committed status byte after a
successful translation equals the encoding of `winStatusOf`, which reads
nothing from the store, so it is the same whatever was previously
committed; on Linux the translated status is the same for any two prior
store contents. -/
theorem C9_translator_status_deterministic :
    (∀ (ev : WinEvidence) (st : WinStore) (s : NetworkStatus),
      winStatusOf ev = .ok s →
      ((get_network_info ev st).1).status = statusToU8 s) ∧
    (∀ (ev : LinuxEvidence) (i1 i2 : NetworkInfo),
      (network_changed_cb ev i1).status = (network_changed_cb ev i2).status) := by
  constructor
  · intro ev st s h
    simp only [get_network_info, h]
    cases hd : win_has_dns ev <;> simp
  · intro ev i1 i2
    simp [network_changed_cb_eq]

/-- Witness for C9 at concrete evidence and two different prior stores. -/
theorem C9_translator_status_deterministic_witness :
    ((get_network_info
      { connectivity := 0, is_connected_to_internet := some true,
        is_connected := some false, adapters_for_available := some [],
        adapters_for_dns := some [] }
      { is_expensive := true, is_low_data_mode := true, has_ipv4 := true,
        has_ipv6 := true, has_dns := true, status := 4 }).1).status =
    statusToU8 .Satisfied :=
  C9_translator_status_deterministic.1
    { connectivity := 0, is_connected_to_internet := some true,
      is_connected := some false, adapters_for_available := some [],
      adapters_for_dns := some [] }
    { is_expensive := true, is_low_data_mode := true, has_ipv4 := true,
      has_ipv6 := true, has_dns := true, status := 4 }
    .Satisfied rfl

/-- C10: on Linux the snapshot fields is_expensive, has_ipv4, has_ipv6 and
has_dns are monotone under update callbacks: each `network_changed_cb`
invocation only ORs fresh evidence into them, so once true in the committed
process-wide store they remain true across any further update sequence —
and since `NETWORK_INFO` is one `static`, across all monitor instances. -/
theorem C10_linux_snapshot_fields_monotone :
    ∀ (evs : List LinuxEvidence) (i : NetworkInfo),
      (i.is_expensive = true → (linux_update_seq evs i).is_expensive = true) ∧
      (i.has_ipv4 = true → (linux_update_seq evs i).has_ipv4 = true) ∧
      (i.has_ipv6 = true → (linux_update_seq evs i).has_ipv6 = true) ∧
      (i.has_dns = true → (linux_update_seq evs i).has_dns = true) := by
  intro evs
  induction evs with
  | nil => exact fun i => ⟨fun h => h, fun h => h, fun h => h, fun h => h⟩
  | cons ev evs ih =>
    intro i
    refine ⟨fun h => ?_, fun h => ?_, fun h => ?_, fun h => ?_⟩
    · rw [linux_update_seq_cons]
      exact (ih (network_changed_cb ev i)).1 (by rw [network_changed_cb_eq]; simp [h])
    · rw [linux_update_seq_cons]
      exact (ih (network_changed_cb ev i)).2.1 (by rw [network_changed_cb_eq]; simp [h])
    · rw [linux_update_seq_cons]
      exact (ih (network_changed_cb ev i)).2.2.1 (by rw [network_changed_cb_eq]; simp [h])
    · rw [linux_update_seq_cons]
      exact (ih (network_changed_cb ev i)).2.2.2 (by rw [network_changed_cb_eq]; simp [h])

/-- Witness for C10: a store with all four fields true keeps them true
across a concrete update that carries no supporting evidence. -/
theorem C10_linux_snapshot_fields_monotone_witness :
    ((linux_update_seq [⟨0, [], none, 0⟩] ⟨.Invalid, true, false, true, true, true⟩).is_expensive = true) ∧
    ((linux_update_seq [⟨0, [], none, 0⟩] ⟨.Invalid, true, false, true, true, true⟩).has_ipv4 = true) ∧
    ((linux_update_seq [⟨0, [], none, 0⟩] ⟨.Invalid, true, false, true, true, true⟩).has_ipv6 = true) ∧
    ((linux_update_seq [⟨0, [], none, 0⟩] ⟨.Invalid, true, false, true, true, true⟩).has_dns = true) :=
  ⟨(C10_linux_snapshot_fields_monotone [⟨0, [], none, 0⟩] ⟨.Invalid, true, false, true, true, true⟩).1 rfl,
   (C10_linux_snapshot_fields_monotone [⟨0, [], none, 0⟩] ⟨.Invalid, true, false, true, true, true⟩).2.1 rfl,
   (C10_linux_snapshot_fields_monotone [⟨0, [], none, 0⟩] ⟨.Invalid, true, false, true, true, true⟩).2.2.1 rfl,
   (C10_linux_snapshot_fields_monotone [⟨0, [], none, 0⟩] ⟨.Invalid, true, false, true, true, true⟩).2.2.2 rfl⟩

/-- C2 counterexample: on Linux, after `new` and a single `start`, `stop()`
returns with the `g_main_loop_run` background thread still executing
(`thread_running = true`): stop only disconnects the tracked signal
connection and performs no join, so the claim that stop blocks until the
background execution context has fully terminated is false on this
concrete run. The thread is joined only in `Drop`. -/
theorem C2_stop_joins_counterexample :
    linux_new ⟨0, [], none, 0⟩ true ⟨⟨.Invalid, false, false, false, false, false⟩, none⟩ =
      .ok (⟨[], none, true⟩, ⟨⟨.Invalid, false, false, false, false, false⟩, none⟩, []) ∧
    (linux_stop (linux_start 1 10 ⟨[], none, true⟩
      ⟨⟨.Invalid, false, false, false, false, false⟩, none⟩).1).thread_running = true :=
  ⟨rfl, rfl⟩

/-- C2 amended: on Linux, `stop()` never changes the background thread
state (no join happens in `stop`; the join is performed at teardown, where
`linux_drop` does terminate the thread), and after a single `start` from a
fresh monitor, `stop()` leaves no connected signal, so a subsequent native
change produces no callback delivery through this monitor; the background
execution context itself, however, is still running when `stop()` returns. -/
theorem C2_stop_amended :
    (∀ m : LinuxMonitor, (linux_stop m).thread_running = m.thread_running) ∧
    (∀ m : LinuxMonitor, (linux_drop m).thread_running = false) ∧
    (∀ (h c : Nat) (m : LinuxMonitor) (g : LinuxGlobals) (ev : LinuxEvidence)
       (g2 : LinuxGlobals),
      m.connections = [] →
      linux_native_change ev (linux_stop (linux_start h c m g).1) g2 = (g2, [])) := by
  refine ⟨?_, ?_, ?_⟩
  · intro m
    unfold linux_stop
    cases m.signal_id <;> rfl
  · intro m
    rfl
  · intro h c m g ev g2 hm
    unfold linux_native_change
    rw [stop_after_start_connections, hm]
    rfl

/-- Witness for the amended C2 at a concrete monitor. -/
theorem C2_stop_amended_witness :
    linux_native_change ⟨0, [], none, 0⟩
      (linux_stop (linux_start 1 10 ⟨[], none, true⟩
        ⟨⟨.Invalid, false, false, false, false, false⟩, none⟩).1)
      ⟨⟨.Invalid, false, false, false, false, false⟩, some 1⟩ =
    (⟨⟨.Invalid, false, false, false, false, false⟩, some 1⟩, []) :=
  C2_stop_amended.2.2 1 10 ⟨[], none, true⟩
    ⟨⟨.Invalid, false, false, false, false, false⟩, none⟩
    ⟨0, [], none, 0⟩
    ⟨⟨.Invalid, false, false, false, false, false⟩, some 1⟩ rfl

/-- C5 counterexample: two consecutive `start` calls on one Linux monitor
leave two signal connections armed on the client — the second `start` does
create a second native change subscription (the first one leaks: only its
id field is overwritten) — and when a native change then fires, the
replacement handler 2 receives two deliveries, one per armed connection. -/
theorem C5_second_start_counterexample :
    ((linux_start 2 11
        (linux_start 1 10 ⟨[], none, true⟩
          ⟨⟨.Invalid, false, false, false, false, false⟩, none⟩).1
        (linux_start 1 10 ⟨[], none, true⟩
          ⟨⟨.Invalid, false, false, false, false, false⟩, none⟩).2).1).connections.length = 2 ∧
    (linux_native_change ⟨0, [], none, 0⟩
        (linux_start 2 11
          (linux_start 1 10 ⟨[], none, true⟩
            ⟨⟨.Invalid, false, false, false, false, false⟩, none⟩).1
          (linux_start 1 10 ⟨[], none, true⟩
            ⟨⟨.Invalid, false, false, false, false, false⟩, none⟩).2).1
        (linux_start 2 11
          (linux_start 1 10 ⟨[], none, true⟩
            ⟨⟨.Invalid, false, false, false, false, false⟩, none⟩).1
          (linux_start 1 10 ⟨[], none, true⟩
            ⟨⟨.Invalid, false, false, false, false, false⟩, none⟩).2).2).2 =
      [(2, ⟨.Invalid, false, false, false, false, false⟩),
       (2, ⟨.Invalid, false, false, false, false, false⟩)] :=
  ⟨rfl, rfl⟩

/-- C5 amended: a second `start(H2)` does replace the registered handler —
afterwards the global handler cell holds H2 and every delivery of a native
emission is addressed to the currently registered handler, so H1 receives
none — but it arms a second native signal subscription instead of reusing
the first: the connection list grows by two across the two `start` calls,
and the leaked first connection causes duplicate deliveries to H2. -/
theorem C5_second_start_amended :
    (∀ (h1 c1 h2 c2 : Nat) (m : LinuxMonitor) (g : LinuxGlobals),
      ((linux_start h2 c2 (linux_start h1 c1 m g).1 (linux_start h1 c1 m g).2).2).handler
        = some h2 ∧
      ((linux_start h2 c2 (linux_start h1 c1 m g).1 (linux_start h1 c1 m g).2).1).connections
        = c2 :: c1 :: m.connections) ∧
    (∀ (ev : LinuxEvidence) (m : LinuxMonitor) (g : LinuxGlobals) (h : Nat),
      g.handler = some h →
      ∀ d ∈ (linux_native_change ev m g).2, d.1 = h) := by
  constructor
  · intro h1 c1 h2 c2 m g
    exact ⟨rfl, rfl⟩
  · exact fun ev m g h hg => linux_native_change_to_handler ev m g h hg

/-- Witness for the amended C5 at a concrete emission. -/
theorem C5_second_start_amended_witness :
    ∀ d ∈ (linux_native_change ⟨0, [], none, 0⟩ ⟨[10, 11], some 11, true⟩
      ⟨⟨.Invalid, false, false, false, false, false⟩, some 2⟩).2, d.1 = 2 :=
  C5_second_start_amended.2 ⟨0, [], none, 0⟩ ⟨[10, 11], some 11, true⟩
    ⟨⟨.Invalid, false, false, false, false, false⟩, some 2⟩ 2 rfl

/-- C4 counterexample: on Windows, `stop()` can return an error, so it is
not the error-free idempotent operation the claim states. Concretely, on a
monitor whose start armed the advisory cookies (both 1), a first `stop()`
succeeds but returns the monitor with its cookie fields still set (they
are never zeroed), so calling `stop()` twice in a row re-issues `Unadvise`
with the stale cookie, and when that native call fails — as the error
taxonomy of the native boundary allows — the second `stop()` surfaces the
failure as an error return. -/
theorem C4_stop_idempotent_counterexample :
    win_stop ⟨1, 1⟩ true true = .ok ⟨1, 1⟩ ∧
    win_stop ⟨1, 1⟩ false true = .error () := by
  constructor <;> rfl

/-- C4 amended: `stop()` never blocks (it performs no join on any
platform) and, called before any `start` (both cookies 0), never errors
whatever the native layer does; on Linux `stop` is infallible and
idempotent (`stop ∘ stop = stop`). But on Windows a successful `stop`
returns the monitor unchanged — cookies included — so a repeated `stop`
re-attempts the `Unadvise` calls and surfaces any native failure as an
error. -/
theorem C4_stop_idempotent_amended :
    (∀ (m : WinMonitor) (o1 o2 : Bool),
      m.advise_network_list_manager_cookie = 0 →
      m.advise_cost_manager_cookie = 0 →
      win_stop m o1 o2 = .ok m) ∧
    (∀ (m m2 : WinMonitor) (o1 o2 : Bool),
      win_stop m o1 o2 = .ok m2 → m2 = m) ∧
    (∀ m : LinuxMonitor, linux_stop (linux_stop m) = linux_stop m) := by
  refine ⟨?_, ?_, ?_⟩
  · intro m o1 o2 h1 h2
    unfold win_stop
    rw [h1, h2]
    simp
  · intro m m2 o1 o2 h
    unfold win_stop at h
    split_ifs at h
    simp only [Except.ok.injEq] at h
    exact h.symm
  · intro m
    cases hs : m.signal_id with
    | none => simp [linux_stop, hs]
    | some id => simp [linux_stop, hs]

/-- Witness for the amended C4 at concrete monitors. -/
theorem C4_stop_idempotent_amended_witness :
    win_stop ⟨0, 0⟩ false false = .ok ⟨0, 0⟩ ∧
    linux_stop (linux_stop ⟨[10], some 10, true⟩) = linux_stop ⟨[10], some 10, true⟩ :=
  ⟨C4_stop_idempotent_amended.1 ⟨0, 0⟩ false false rfl rfl,
   C4_stop_idempotent_amended.2.2 ⟨[10], some 10, true⟩⟩

/-- C6 counterexample: an operation other than `new`/`start`/`start_weak`
can return an error to the caller: the Windows `stop()` propagates a
failing native `Unadvise` (here on the cost-manager connection point) as
an error return instead of returning unit, contradicting the claim that
stop surfaces no error. -/
theorem C6_error_surface_counterexample :
    win_stop ⟨2, 3⟩ true false = .error () := rfl

/-- C6 amended: post-construction failures surface to the caller only
through the Windows `stop()`: macOS `stop()` always returns Ok, Linux
`stop()` returns unit and cannot fail by construction, and a Windows
`stop()` error return happens only when an armed advisory cookie's
`Unadvise` fails at the native boundary. -/
theorem C6_error_surface_amended :
    (∀ m : MacMonitor, (macos_stop m).2 = .ok ()) ∧
    (∀ (m : WinMonitor) (o1 o2 : Bool),
      win_stop m o1 o2 = .error () →
      (m.advise_network_list_manager_cookie ≠ 0 ∧ o1 = false) ∨
      (m.advise_cost_manager_cookie ≠ 0 ∧ o2 = false)) := by
  constructor
  · intro m
    rfl
  · intro m o1 o2 h
    unfold win_stop at h
    split_ifs at h with h1 h2
    · exact .inl ⟨h1.1, by simpa using h1.2⟩
    · exact .inr ⟨h2.1, by simpa using h2.2⟩

/-- Witness for the amended C6 at a concrete failing stop. -/
theorem C6_error_surface_amended_witness :
    (macos_stop ⟨false⟩).2 = .ok () ∧
    (((⟨4, 0⟩ : WinMonitor).advise_network_list_manager_cookie ≠ 0 ∧ false = false) ∨
     ((⟨4, 0⟩ : WinMonitor).advise_cost_manager_cookie ≠ 0 ∧ true = false)) :=
  ⟨C6_error_surface_amended.1 ⟨false⟩,
   C6_error_surface_amended.2 ⟨4, 0⟩ false true rfl⟩

/-- C3 counterexample: on Windows, every native query of the seed probe
succeeds (`GetConnectivity` reports IPv4 internet, `IsConnectedToInternet`
would be true) but the connection enumeration yields zero connections, so
`new` skips the whole probe body: `current()` right after `new` returns the
default zero-value snapshot (all false, `Invalid`) instead of a snapshot
reflecting the probe, whose own evidence translates to `Satisfied`. -/
theorem C3_seed_probe_counterexample :
    windows_new { connectivity := some 64, connections := some [],
                  path := { connectivity := 0, is_connected_to_internet := some true,
                            is_connected := some true, adapters_for_available := some [],
                            adapters_for_dns := some [] } } =
      .ok ⟨false, false, false, false, false, 0⟩ ∧
    winStatusOf (withConnectivity
      { connectivity := 0, is_connected_to_internet := some true,
        is_connected := some true, adapters_for_available := some [],
        adapters_for_dns := some [] } 64) = .ok .Satisfied ∧
    win_current ⟨false, false, false, false, false, 0⟩ =
      ⟨.Invalid, false, false, false, false, false⟩ := ⟨rfl, rfl, rfl⟩

/-- C3 amended: the synchronous seed probe holds with one carve-out. On
Linux, a successful `new` commits exactly the result of one synchronous
`network_changed_cb` run and its status is never `Unknown`. On Windows,
any successful `new` leaves a status that decodes to something other than
`Unknown`, and whenever the probe enumerated at least one network
connection the committed status byte is the encoding of the probe's
translated status; but when the (successful) enumeration reports zero
connections the probe body is skipped and the default `Invalid` snapshot
remains. macOS `new` performs no probe and exposes no `current`. -/
theorem C3_seed_probe_amended :
    (∀ (ev : LinuxEvidence) (g : LinuxGlobals) (m : LinuxMonitor)
       (g2 : LinuxGlobals) (ds : List (Nat × NetworkInfo)),
      linux_new ev true g = .ok (m, g2, ds) →
      g2.info = network_changed_cb ev g.info ∧ g2.info.status ≠ .Unknown) ∧
    (∀ (ev : WinNewEvidence) (st : WinStore),
      windows_new ev = .ok st → (win_current st).status ≠ .Unknown) ∧
    (∀ (ev : WinNewEvidence) (c : Nat) (conn : WinConnection)
       (rest : List WinConnection) (st : WinStore),
      ev.connectivity = some c →
      ev.connections = some (conn :: rest) →
      windows_new ev = .ok st →
      ∃ s : NetworkStatus, winStatusOf (withConnectivity ev.path c) = .ok s ∧
        st.status = statusToU8 s) := by
  refine ⟨?_, ?_, ?_⟩
  · intro ev g m g2 ds h
    simp only [linux_new, linux_fire, if_true, Except.ok.injEq, Prod.mk.injEq] at h
    obtain ⟨-, h2, -⟩ := h
    rw [← h2]
    refine ⟨rfl, ?_⟩
    show (network_changed_cb ev g.info).status ≠ .Unknown
    rw [network_changed_cb_eq]
    exact linuxStatusOf_ne_unknown ev.connectivity
  · intro ev st h
    rcases windows_new_status h with h0 | ⟨s, hne, hs⟩
    · show statusOfU8 st.status ≠ .Unknown
      rw [h0]
      simp [statusOfU8]
    · show statusOfU8 st.status ≠ .Unknown
      rw [hs, statusOfU8_statusToU8]
      exact hne
  · intro ev c conn rest st hc hcs h
    obtain ⟨ni, hw, hst⟩ := windows_new_cons hc hcs h
    exact ⟨ni.status, hw, hst⟩

/-- Witness for the amended C3 at concrete evidence on both platforms. -/
theorem C3_seed_probe_amended_witness :
    ((⟨⟨.Invalid, false, false, false, false, false⟩, none⟩ : LinuxGlobals).info =
      network_changed_cb ⟨0, [], none, 0⟩ ⟨.Invalid, false, false, false, false, false⟩ ∧
      ((⟨⟨.Invalid, false, false, false, false, false⟩, none⟩ : LinuxGlobals).info).status ≠ .Unknown) ∧
    (win_current ⟨false, false, true, false, false, 1⟩).status ≠ .Unknown ∧
    (∃ s : NetworkStatus, winStatusOf (withConnectivity
        { connectivity := 0, is_connected_to_internet := some true,
          is_connected := some true, adapters_for_available := some [],
          adapters_for_dns := some [] } 64) = .ok s ∧
      (⟨false, false, true, false, false, 1⟩ : WinStore).status = statusToU8 s) :=
  ⟨C3_seed_probe_amended.1 ⟨0, [], none, 0⟩
      ⟨⟨.Invalid, false, false, false, false, false⟩, none⟩
      ⟨[], none, true⟩ ⟨⟨.Invalid, false, false, false, false, false⟩, none⟩ [] rfl,
   C3_seed_probe_amended.2.1
      { connectivity := some 64,
        connections := some [⟨true, some 1, some U32_MAX⟩],
        path := { connectivity := 0, is_connected_to_internet := some true,
                  is_connected := some true, adapters_for_available := some [],
                  adapters_for_dns := some [] } }
      ⟨false, false, true, false, false, 1⟩ rfl,
   C3_seed_probe_amended.2.2
      { connectivity := some 64,
        connections := some [⟨true, some 1, some U32_MAX⟩],
        path := { connectivity := 0, is_connected_to_internet := some true,
                  is_connected := some true, adapters_for_available := some [],
                  adapters_for_dns := some [] } }
      64 ⟨true, some 1, some U32_MAX⟩ [] ⟨false, false, true, false, false, 1⟩
      rfl rfl rfl⟩

/-- C7 counterexample: a Windows connectivity-change step in which the DNS
sub-query fails. The new connectivity bitmask carries the IPV4 internet
flag, so per-address-family reachability was determined from the new
evidence, yet the committed store still has `has_ipv4 = false` afterwards:
on this path the code never commits the determined ipv4/ipv6 values to the
store (only `status` is committed), so "the fields that were determined
are still committed to the store" is false at this input. (`has_dns`,
previously true, is indeed retained, and `status` is committed as 3 =
Satisfiable.) -/
theorem C7_partial_commit_counterexample :
    win_on_connectivity_changed
      { connectivity := 64, is_connected_to_internet := some false,
        is_connected := some true, adapters_for_available := some [⟨true, false⟩],
        adapters_for_dns := none }
      ⟨false, false, false, false, true, 1⟩ =
      (⟨false, false, false, false, true, 3⟩, []) ∧
    nlmHasFlag 64 NLM_CONNECTIVITY_IPV4_INTERNET = true ∧
    (⟨false, false, false, false, true, 3⟩ : WinStore).has_ipv4 = false :=
  ⟨rfl, rfl, rfl⟩

/-- C7 amended: when the DNS sub-query of a Windows connectivity-change
step fails after the status was determined, the step delivers nothing and
commits exactly the freshly translated status; every other store field
keeps its previously committed value — in particular a previous
`has_dns = true` is retained. (Determined-but-uncommitted fields exist:
ipv4/ipv6 reachability is only carried in the delivered snapshot, never
committed on this path.) The failure is returned to COM and, by
construction, touches neither the advisory subscriptions nor the pump. -/
theorem C7_partial_commit_amended :
    ∀ (ev : WinEvidence) (st : WinStore) (s : NetworkStatus),
      ev.adapters_for_dns = none →
      winStatusOf ev = .ok s →
      win_on_connectivity_changed ev st = ({ st with status := statusToU8 s }, []) := by
  intro ev st s hd hs
  unfold win_on_connectivity_changed
  rw [get_network_info_dns_fail st hs hd]

/-- Witness for the amended C7: DNS fails while `has_dns` was true; the
committed snapshot retains it and the status reflects the new evidence. -/
theorem C7_partial_commit_amended_witness :
    win_on_connectivity_changed
      { connectivity := 0, is_connected_to_internet := some true,
        is_connected := some true, adapters_for_available := some [],
        adapters_for_dns := none }
      ⟨true, true, true, true, true, 0⟩ =
      (⟨true, true, true, true, true, 1⟩, []) :=
  C7_partial_commit_amended
    { connectivity := 0, is_connected_to_internet := some true,
      is_connected := some true, adapters_for_available := some [],
      adapters_for_dns := none }
    ⟨true, true, true, true, true, 0⟩ .Satisfied rfl rfl

/-- C8 counterexample: two network connections are enumerable; the second
one is metered by the code's own criterion (a finite data-plan limit), but
the Windows construction classifies `is_expensive = false` because it
consults only the first enumerated connection — refuting "is_expensive is
true if any adapter is metered". -/
theorem C8_any_adapter_metered_counterexample :
    windows_new { connectivity := some 0,
                  connections := some [⟨true, some 1, some U32_MAX⟩, ⟨true, some 2, some 100⟩],
                  path := { connectivity := 0, is_connected_to_internet := some false,
                            is_connected := some false, adapters_for_available := some [],
                            adapters_for_dns := some [] } } =
      .ok ⟨false, false, false, false, false, 0⟩ ∧
    List.any [(⟨true, some 1, some U32_MAX⟩ : WinConnection), ⟨true, some 2, some 100⟩]
      (fun conn => conn.data_limit_mb != some U32_MAX) = true :=
  ⟨rfl, rfl⟩

/-- C8 amended: on Linux, `is_expensive` is indeed an any-adapter
classification (true iff some enumerated device is a modem, or it was
already true) and `has_dns` is evaluated against the primary connection
only; but `has_ipv4` is an any-device OR, not a primary-path evaluation.
On Windows the cost/metered classification of `new` depends only on the
first enumerated connection: appending further connections changes
nothing. -/
theorem C8_cost_and_paths_amended :
    (∀ (ev : LinuxEvidence) (i : NetworkInfo),
      (network_changed_cb ev i).is_expensive =
        (i.is_expensive || ev.devices.any (fun d => decide (d.device_type = NM_DEVICE_TYPE_MODEM)))) ∧
    (∀ (ev : LinuxEvidence) (i : NetworkInfo),
      (network_changed_cb ev i).has_dns =
        (i.has_dns || (match ev.primary_connection with
          | some pc => pc.ip4_config_nonnull && pc.nameservers_nonnull
          | none => false))) ∧
    (∀ (ev : LinuxEvidence) (i : NetworkInfo),
      (network_changed_cb ev i).has_ipv4 =
        (i.has_ipv4 || ev.devices.any (fun d => d.ip4_config_nonnull))) ∧
    (∀ (ev : WinNewEvidence) (conn : WinConnection) (rest : List WinConnection),
      windows_new { ev with connections := some (conn :: rest) } =
        windows_new { ev with connections := some [conn] }) := by
  refine ⟨?_, ?_, ?_, ?_⟩
  · intro ev i
    rw [network_changed_cb_eq]
  · intro ev i
    rw [network_changed_cb_eq]
  · intro ev i
    rw [network_changed_cb_eq]
  · intro ev conn rest
    cases hc : ev.connectivity with
    | none => simp [windows_new, hc]
    | some c => simp [windows_new, hc]
